import Mathlib

/-!
# A model of the cgc (Cross Goroutine Calls) package

Shallow embedding of `cgc.go` (the revision consistent with `cgc_test.go`,
whose `TestBrokenResultChan` requires `Submit` to panic on a closed reply
channel).  Channels are modelled by explicit state:

* the reply slot (a fresh `chan *result` of capacity 1) is a `SlotState`
  holding at most one buffered pair plus a closed flag;
* the executor queue (`chan *Request`) is a `QueueState`: pending items in
  FIFO order plus a closed flag;
* a Go `select` whose branches are simultaneously ready chooses one of them
  pseudo-randomly; that choice is made explicit as a `SelectChoice`
  parameter (`first`/`second` in the source order of the cases);
* a `context.Context` is a snapshot of its identity and cancellation state
  at the moment an operation consults it.

Functions that can fail to return (a blocked channel operation, a panic)
return an outcome constructor saying so instead.
-/

namespace Cgc

/-- The cancellation cause a context may carry (`ctx.Err()`). -/
inductive CtxErr where
  | canceled
  | deadlineExceeded
deriving DecidableEq, Repr

/-- A `context.Context` value: `id` models object identity (Go compares
contexts with pointer/interface equality in `ctx != r.Context`); `err` is
`none` while the context is live, `some c` once cancelled with cause `c`. -/
structure Context where
  id : Nat
  err : Option CtxErr
deriving DecidableEq, Repr

/-- `ctx.Done()` is closed exactly when the context carries an error. -/
def Context.isDone (c : Context) : Bool := c.err.isSome

/-- A Go `interface{}` result payload; `none` is the nil interface. -/
abbrev Val := Option Nat

/-- Go `error` values observable in this package: the sentinels
`context.Canceled`, `context.DeadlineExceeded`, `io.EOF`, and opaque
work-function errors. -/
inductive GoErr where
  | ctxCanceled
  | ctxDeadlineExceeded
  | eof
  | other (code : Nat)
deriving DecidableEq, Repr

/-- Panic payloads that can arise in the modelled code paths. -/
inductive PanicVal where
  /-- a panic raised inside the submitted work function -/
  | fromFunc (code : Nat)
  /-- the runtime panic for a send on a closed channel -/
  | sendOnClosed
  /-- the panic in Submit when the reply channel closes without a result -/
  | resultChanClosedEmpty
deriving DecidableEq, Repr

/-- What one invocation of a work function does: return a (value, error)
pair, or panic. -/
inductive FuncRes where
  | ok (v : Val) (e : Option GoErr)
  | panics (code : Nat)
deriving DecidableEq, Repr

/-- `Func`: the submitted work function, applied to the context it is given
by `RunOneRequest`. -/
abbrev Func := Context → FuncRes

/-- `Request`: the message body passed from the caller to the callee.
`hasResult` records whether the `result` channel is non-nil (`Submit`
creates it, `SubmitNoWait` leaves it nil). -/
structure Request where
  func : Func
  context : Context
  hasResult : Bool

/-- State of the capacity-1 reply channel: the buffered pair, if any, and
whether the channel has been closed. -/
structure SlotState where
  sent : Option (Val × Option GoErr)
  closed : Bool
deriving DecidableEq, Repr

/-- A freshly made reply channel: empty and open. -/
def emptySlot : SlotState := ⟨none, false⟩

/-- Observable actions of `RunOneRequest`, in program order. -/
inductive Event where
  /-- the work function is invoked with this context -/
  | callFunc (arg : Context)
  /-- `joinedCancel()` is called, releasing the joined context -/
  | releaseJoin
  /-- the (value, error) pair is sent into the reply channel -/
  | sendResult (v : Val) (e : Option GoErr)
  /-- the reply channel is closed -/
  | closeSlot
deriving DecidableEq, Repr

/-- Modelled from the spec: `joincontext.Join` is an external dependency
(github.com/LK4D4/joincontext), not part of this repository.  Per the spec,
the joined context is a new object that is cancelled as soon as either
parent is cancelled and then carries that parent's cancellation error (the
first parent wins when both are cancelled). -/
def joinContext (c1 c2 : Context) : Context :=
  { id := max c1.id c2.id + 1
    err := c1.err.orElse fun _ => c2.err }

/-- The context `RunOneRequest` hands to the work function: `ctx` itself
when `ctx` and `r.Context` are the same object, the joined context
otherwise. -/
def effectiveCtx (ctx : Context) (r : Request) : Context :=
  if ctx = r.context then ctx else joinContext ctx r.context

/-- How an invocation of `RunOneRequest` ends. -/
inductive RunOutcome where
  | normal
  | panicked (p : PanicVal)
  /-- the send into the reply channel would block (buffer already full) -/
  | blockedSend
deriving DecidableEq, Repr

/-- Everything observable about one `RunOneRequest` invocation. -/
structure RunResult where
  events : List Event
  outcome : RunOutcome
  slot : SlotState
deriving DecidableEq, Repr

/-- `RunOneRequest(ctx, r)` with the reply channel currently in state
`slot`.  Mirrors the source: build the joined context unless `ctx ==
r.Context`; call the work function; call `joinedCancel` (only in the join
case) right after it returns; if `r.result != nil`, send the result pair
and then close the channel.  A panic in the work function propagates at
once, skipping the cancel call and every channel operation. -/
def runOneRequest (ctx : Context) (r : Request) (slot : SlotState) : RunResult :=
  let joined := effectiveCtx ctx r
  match r.func joined with
  | .panics code => ⟨[.callFunc joined], .panicked (.fromFunc code), slot⟩
  | .ok v e =>
    let ev0 := Event.callFunc joined ::
      (if ctx = r.context then [] else [Event.releaseJoin])
    if r.hasResult then
      if slot.closed then ⟨ev0, .panicked .sendOnClosed, slot⟩
      else if slot.sent.isSome then ⟨ev0, .blockedSend, slot⟩
      else ⟨ev0 ++ [.sendResult v e, .closeSlot], .normal, ⟨some (v, e), true⟩⟩
    else ⟨ev0, .normal, slot⟩

/-- Which branch a `select` takes when several cases are ready, numbered in
source order.  In `Submit`, `SubmitNoWait` and `RunOnce` the first case is
`<-ctx.Done()` and the second is the executor-channel operation. -/
inductive SelectChoice where
  | first
  | second
deriving DecidableEq, Repr

/-- What `Submit` ends up doing: return a (value, error) pair, panic, or
stay blocked at one of its two suspension points. -/
inductive SubmitOutcome where
  | ret (v : Val) (e : Option GoErr)
  | panicked (p : PanicVal)
  /-- the enqueue select blocks: ctx live and no receiver or buffer space -/
  | blockedEnqueue
  /-- the plain receive from the reply channel blocks (slot empty, open) -/
  | blockedReply
deriving DecidableEq, Repr

/-- The unconditional receive `res, ok := <-resultChan` at the end of
`Submit`: a buffered pair is delivered first even on a closed channel; a
closed empty channel yields `ok = false` and `Submit` panics; an open empty
channel blocks.  Note this step consults no context at all. -/
def recvResult (slot : SlotState) : SubmitOutcome :=
  match slot.sent with
  | some (v, e) => .ret v e
  | none => if slot.closed then .panicked .resultChanClosedEmpty else .blockedReply

/-- The request `Submit(ctx, f)` constructs: reply channel present. -/
def submitRequest (ctx : Context) (f : Func) : Request := ⟨f, ctx, true⟩

/-- The request `SubmitNoWait(ctx, f)` constructs: no reply channel. -/
def noWaitRequest (ctx : Context) (f : Func) : Request := ⟨f, ctx, false⟩

/-- Outcome of `Submit` together with whether its request was enqueued. -/
structure SubmitRes where
  outcome : SubmitOutcome
  enqueued : Bool
deriving DecidableEq, Repr

/-- `Submit(ctx, f)`.  `enqueueReady` says whether the send into the
executor channel could proceed at the select (a receiver is waiting or
buffer space is free); `choice` resolves the select when both cases are
ready; `slotAtReceive` is the state of the fresh reply channel at the
moment the final receive completes (as left by the consumer).  Source:
select over `<-ctx.Done()` (first case) and the enqueue (second case);
then, if enqueued, the unconditional `res, ok := <-resultChan`. -/
def submit (ctx : Context) (enqueueReady : Bool) (choice : SelectChoice)
    (slotAtReceive : SlotState) : SubmitRes :=
  if ctx.isDone then
    if enqueueReady then
      match choice with
      | .first => ⟨.ret none (some .ctxCanceled), false⟩
      | .second => ⟨recvResult slotAtReceive, true⟩
    else ⟨.ret none (some .ctxCanceled), false⟩
  else if enqueueReady then ⟨recvResult slotAtReceive, true⟩
  else ⟨.blockedEnqueue, false⟩

/-- Return value of the consumer-side functions (`RunOnce`, `RunLoop`) and
of `SubmitNoWait`: an ordinary `error` return (possibly nil), a panic
propagating out, or a blocked channel operation. -/
inductive ConsumerOutcome where
  | ret (e : Option GoErr)
  | panicked (p : PanicVal)
  | blocked
deriving DecidableEq, Repr

/-- Outcome of `SubmitNoWait` together with whether its request was
enqueued. -/
structure NoWaitRes where
  outcome : ConsumerOutcome
  enqueued : Bool
deriving DecidableEq, Repr

/-- `SubmitNoWait(ctx, f)`: the same select as the first phase of `Submit`,
then `return nil`. -/
def submitNoWait (ctx : Context) (enqueueReady : Bool) (choice : SelectChoice) :
    NoWaitRes :=
  if ctx.isDone then
    if enqueueReady then
      match choice with
      | .first => ⟨.ret (some .ctxCanceled), false⟩
      | .second => ⟨.ret none, true⟩
    else ⟨.ret (some .ctxCanceled), false⟩
  else if enqueueReady then ⟨.ret none, true⟩
  else ⟨.blocked, false⟩

/-- State of the executor channel: pending requests in FIFO order and
whether the channel has been closed. -/
structure QueueState where
  items : List Request
  closed : Bool

/-- Everything observable about one `RunOnce` invocation. -/
structure RunOnceRes where
  outcome : ConsumerOutcome
  rest : List Request
  dequeued : Bool
  slot : SlotState
  events : List Event

/-- A receive on the executor channel is ready when an item is pending or
the channel is closed (a closed channel yields its buffered items first,
then the zero value with `ok = false`). -/
def queueRecvReady (q : QueueState) : Bool := !q.items.isEmpty || q.closed

/-- The `r, ok := <-e` branch of `RunOnce`, only reached when the receive
is ready: on a drained closed channel return `io.EOF`; otherwise dequeue
the head request, run it (the `slot` argument is the state of that
request's reply channel), and return nil — a panic inside the request
propagates. -/
def runOnceRecv (ctx : Context) (q : QueueState) (slot : SlotState) : RunOnceRes :=
  match q.items with
  | [] => ⟨.ret (some .eof), [], false, slot, []⟩
  | r :: rest =>
    let rr := runOneRequest ctx r slot
    match rr.outcome with
    | .panicked p => ⟨.panicked p, rest, true, rr.slot, rr.events⟩
    | .blockedSend => ⟨.blocked, rest, true, rr.slot, rr.events⟩
    | .normal => ⟨.ret none, rest, true, rr.slot, rr.events⟩

/-- `RunOnce(ctx)`: select over `<-ctx.Done()` (first case, returning
`context.Canceled`) and the receive from the executor channel (second
case).  When both are ready, `choice` decides; a branch not chosen has no
effect (in particular no request is dequeued on the Done branch). -/
def runOnce (ctx : Context) (q : QueueState) (choice : SelectChoice)
    (slot : SlotState) : RunOnceRes :=
  if ctx.isDone then
    if queueRecvReady q then
      match choice with
      | .first => ⟨.ret (some .ctxCanceled), q.items, false, slot, []⟩
      | .second => runOnceRecv ctx q slot
    else ⟨.ret (some .ctxCanceled), q.items, false, slot, []⟩
  else if queueRecvReady q then runOnceRecv ctx q slot
  else ⟨.blocked, q.items, false, slot, []⟩

/-- The loop of `RunLoop(ctx)` over the pending items: each iteration is
one `RunOnce` step consuming one entry of the select schedule `sched`; a
nil `RunOnce` return continues the loop, `io.EOF` returns nil, and
`context.Canceled` is returned as is.  Every queued request made by
`Submit` carries a fresh (empty, open) reply channel.  Returns the final
outcome and the number of requests dequeued. -/
def runLoopAux (ctx : Context) (closed : Bool) :
    List Request → List SelectChoice → ConsumerOutcome × Nat
  | [], sched =>
    if ctx.isDone then
      if closed then
        match sched.headD .first with
        | .first => (.ret (some .ctxCanceled), 0)
        | .second => (.ret none, 0)
      else (.ret (some .ctxCanceled), 0)
    else if closed then (.ret none, 0)
    else (.blocked, 0)
  | r :: rest, sched =>
    let step : ConsumerOutcome × Nat :=
      match (runOneRequest ctx r emptySlot).outcome with
      | .panicked p => (.panicked p, 1)
      | .blockedSend => (.blocked, 1)
      | .normal =>
        let next := runLoopAux ctx closed rest sched.tail
        (next.1, next.2 + 1)
    if ctx.isDone then
      match sched.headD .first with
      | .first => (.ret (some .ctxCanceled), 0)
      | .second => step
    else step

/-- `RunLoop(ctx)` on an executor currently in state `q`, with select
schedule `sched`. -/
def runLoop (ctx : Context) (q : QueueState) (sched : List SelectChoice) :
    ConsumerOutcome × Nat :=
  runLoopAux ctx q.closed q.items sched

/-- Recognizer for the close event of the reply channel. -/
def isClose : Event → Bool
  | .closeSlot => true
  | _ => false

/-- Recognizer for the send event into the reply channel. -/
def isSend : Event → Bool
  | .sendResult _ _ => true
  | _ => false

/-- How many times a trace closes the reply channel. -/
def closeCount (evs : List Event) : Nat := (evs.filter isClose).length

/-- How many times a trace sends into the reply channel. -/
def sendCount (evs : List Event) : Nat := (evs.filter isSend).length

/-- A context that was cancelled with `context.Canceled`. -/
def cancelledCtx : Context := ⟨0, some .canceled⟩

/-- A live (never cancelled) context, distinct from `cancelledCtx`. -/
def liveCtx : Context := ⟨1, none⟩

/-- A work function returning the value 42 with a nil error. -/
def f42 : Func := fun _ => .ok (some 42) none

/-- A pending request submitted by a caller with `liveCtx`. -/
def pendingReq : Request := submitRequest liveCtx f42

/-- Helper: with a live consumer context, `runLoopAux` never returns the
`context.Canceled` sentinel, whatever the queue contents, closed flag and
schedule — the Done branch is the only source of that return and it
requires a cancelled context. -/
theorem runLoopAux_ne_canceled (ctx : Context) (h : ctx.isDone = false) :
    ∀ (items : List Request) (closed : Bool) (sched : List SelectChoice),
      (runLoopAux ctx closed items sched).1 ≠ .ret (some .ctxCanceled) := by
  intro items
  induction items with
  | nil =>
    intro closed sched
    simp only [runLoopAux, h]
    cases closed <;> simp
  | cons r rest ih =>
    intro closed sched
    simp only [runLoopAux, h, if_neg]
    simp only [Bool.false_eq_true, if_false]
    cases hr : (runOneRequest ctx r emptySlot).outcome with
    | panicked p => simp
    | blockedSend => simp
    | normal =>
      simp only []
      exact fun hc => ih closed sched.tail hc

/-- Claim C1: a request constructed by `Submit` and processed by
`RunOneRequest` (its work function returning normally) has its reply slot
signalled with the result and then closed; the trace sends exactly once
and closes exactly once, so the slot is never left unresolved and never
closed twice. -/
theorem C1_reply_slot_signalled_then_closed_exactly_once
    (cctx ctx : Context) (f : Func) (v : Val) (e : Option GoErr)
    (hf : f (effectiveCtx cctx (submitRequest ctx f)) = .ok v e) :
    (runOneRequest cctx (submitRequest ctx f) emptySlot).slot
      = ⟨some (v, e), true⟩ ∧
    closeCount (runOneRequest cctx (submitRequest ctx f) emptySlot).events = 1 ∧
    sendCount (runOneRequest cctx (submitRequest ctx f) emptySlot).events = 1 := by
  simp only [submitRequest] at hf ⊢
  simp only [runOneRequest, hf]
  by_cases hc : cctx = ctx <;>
    simp [hc, closeCount, sendCount, isClose, isSend, emptySlot]

/-- Witness for C1 at a concrete work function returning (5, nil). -/
theorem C1_witness :
    (runOneRequest ⟨0, none⟩ (submitRequest ⟨1, none⟩ fun _ => .ok (some 5) none)
        emptySlot).slot = ⟨some (some 5, none), true⟩ ∧
    closeCount (runOneRequest ⟨0, none⟩
        (submitRequest ⟨1, none⟩ fun _ => .ok (some 5) none) emptySlot).events = 1 ∧
    sendCount (runOneRequest ⟨0, none⟩
        (submitRequest ⟨1, none⟩ fun _ => .ok (some 5) none) emptySlot).events = 1 :=
  C1_reply_slot_signalled_then_closed_exactly_once ⟨0, none⟩ ⟨1, none⟩
    (fun _ => .ok (some 5) none) (some 5) none rfl

/-- Claim C2 counterexample: with `ctx` already cancelled, the enqueue
ready and the select resolving to the enqueue case, `Submit` does not
return a cancellation error: if the consumer delivers (42, nil) it returns
exactly that pair, and while nothing has been delivered the final receive
is blocked (it consults no context), so cancellation cannot release it. -/
theorem C2_counterexample :
    (submit cancelledCtx true .second ⟨some (some 42, none), true⟩).outcome
      = .ret (some 42) none ∧
    (submit cancelledCtx true .second ⟨some (some 42, none), true⟩).outcome
      ≠ .ret none (some .ctxCanceled) ∧
    (submit cancelledCtx true .second emptySlot).outcome = .blockedReply := by
  decide

/-- Claim C2 as amended: `Submit` returns the cancellation error promptly
only when `ctx` is cancelled before the request is enqueued (the first
select).  Once the request is enqueued, the outcome is exactly
`recvResult` of the reply-slot state — a function of the slot alone, with
no dependence on any context — so cancellation after enqueue can neither
unblock the reply wait (empty open slot stays blocked) nor turn the
outcome into a cancellation error. -/
theorem C2_cancellation_prompt_only_before_enqueue
    (ctx : Context) (h : ctx.isDone = true) (choice : SelectChoice)
    (slot : SlotState) :
    (submit ctx false choice slot).outcome = .ret none (some .ctxCanceled) ∧
    (∀ ctx' : Context, (submit ctx' true .second slot).outcome = recvResult slot) ∧
    recvResult emptySlot = .blockedReply := by
  refine ⟨by simp [submit, h], fun ctx' => ?_, by simp [recvResult, emptySlot]⟩
  by_cases h' : ctx'.isDone <;> simp [submit, h']

/-- Witness for the amended C2 at a concrete cancelled context. -/
theorem C2_witness :
    (submit cancelledCtx false .first emptySlot).outcome
      = .ret none (some .ctxCanceled) ∧
    (submit liveCtx true .second emptySlot).outcome = recvResult emptySlot ∧
    recvResult emptySlot = .blockedReply := by
  have h := C2_cancellation_prompt_only_before_enqueue cancelledCtx (by decide)
    .first emptySlot
  exact ⟨h.1, h.2.1 liveCtx, h.2.2⟩

/-- Claim C3: when the reply channel is closed without ever receiving a
result, the waiting `Submit` panics with a dedicated message — an outcome
distinct from an ordinary cancellation return and from a silent zero-value
return. -/
theorem C3_closed_empty_reply_panics
    (ctx : Context) (choice : SelectChoice) (h : ctx.isDone = false) :
    (submit ctx true choice ⟨none, true⟩).outcome
      = .panicked .resultChanClosedEmpty ∧
    SubmitOutcome.panicked .resultChanClosedEmpty
      ≠ .ret none (some .ctxCanceled) ∧
    SubmitOutcome.panicked .resultChanClosedEmpty ≠ .ret none none := by
  refine ⟨?_, by decide, by decide⟩
  simp [submit, h, recvResult]

/-- Witness for C3 at a concrete live context. -/
theorem C3_witness :
    (submit liveCtx true .first ⟨none, true⟩).outcome
      = .panicked .resultChanClosedEmpty ∧
    SubmitOutcome.panicked .resultChanClosedEmpty
      ≠ .ret none (some .ctxCanceled) ∧
    SubmitOutcome.panicked .resultChanClosedEmpty ≠ .ret none none :=
  C3_closed_empty_reply_panics liveCtx .first rfl

/-- Claim C4: with both contexts live and one consumer running `RunOnce`,
`Submit` returns exactly the (value, error) pair the work function
returned — in particular (v, nil) for a nil error — and any work-function
error is passed through verbatim. -/
theorem C4_result_passed_through_verbatim
    (ctx cctx : Context) (f : Func) (v : Val) (e : Option GoErr)
    (hc : ctx.isDone = false) (hcc : cctx.isDone = false)
    (choice choice' : SelectChoice)
    (hf : f (effectiveCtx cctx (submitRequest ctx f)) = .ok v e) :
    (runOnce cctx ⟨[submitRequest ctx f], false⟩ choice' emptySlot).outcome
      = .ret none ∧
    (submit ctx true choice
      (runOnce cctx ⟨[submitRequest ctx f], false⟩ choice' emptySlot).slot).outcome
      = .ret v e := by
  have hrun : runOneRequest cctx (submitRequest ctx f) emptySlot
      = ⟨Event.callFunc (effectiveCtx cctx (submitRequest ctx f)) ::
          (if cctx = ctx then [] else [Event.releaseJoin])
          ++ [Event.sendResult v e, Event.closeSlot],
         .normal, ⟨some (v, e), true⟩⟩ := by
    simp only [submitRequest] at hf ⊢
    simp only [runOneRequest, hf]
    by_cases h : cctx = ctx <;> simp [h, emptySlot]
  have honce : (runOnce cctx ⟨[submitRequest ctx f], false⟩ choice' emptySlot)
      = ⟨.ret none, [], true, ⟨some (v, e), true⟩,
          Event.callFunc (effectiveCtx cctx (submitRequest ctx f)) ::
          (if cctx = ctx then [] else [Event.releaseJoin])
          ++ [Event.sendResult v e, Event.closeSlot]⟩ := by
    simp [runOnce, hcc, queueRecvReady, runOnceRecv, hrun]
  rw [honce]
  exact ⟨rfl, by simp [submit, hc, recvResult]⟩

/-- Witness for C4: the work function returns (7, some error 3) and the
caller receives exactly that pair. -/
theorem C4_witness :
    (runOnce ⟨2, none⟩
        ⟨[submitRequest liveCtx fun _ => .ok (some 7) (some (.other 3))], false⟩
        .first emptySlot).outcome = .ret none ∧
    (submit liveCtx true .first
      (runOnce ⟨2, none⟩
        ⟨[submitRequest liveCtx fun _ => .ok (some 7) (some (.other 3))], false⟩
        .first emptySlot).slot).outcome = .ret (some 7) (some (.other 3)) :=
  C4_result_passed_through_verbatim liveCtx ⟨2, none⟩
    (fun _ => .ok (some 7) (some (.other 3))) (some 7) (some (.other 3))
    rfl rfl .first .first rfl

/-- Claim C5: `RunOneRequest` hands the work function `ctx` itself when
`ctx` and `r.Context` are the same object (and then never touches a joined
context); otherwise it hands it the joined context and releases it
immediately after the work function returns (the release is the very next
event after the call, before any reply-slot action).  The joined context
is cancelled exactly when either parent is, carrying that parent's
cancellation error. -/
theorem C5_joined_context_usage
    (ctx : Context) (r : Request) (slot : SlotState) (v : Val) (e : Option GoErr) :
    (ctx = r.context → r.func ctx = .ok v e →
      (runOneRequest ctx r slot).events.head? = some (.callFunc ctx) ∧
      Event.releaseJoin ∉ (runOneRequest ctx r slot).events) ∧
    (ctx ≠ r.context → r.func (joinContext ctx r.context) = .ok v e →
      (runOneRequest ctx r slot).events.take 2
        = [.callFunc (joinContext ctx r.context), .releaseJoin]) ∧
    (∀ c1 c2 : Context,
      (joinContext c1 c2).isDone = (c1.isDone || c2.isDone) ∧
      (c1.isDone = true → (joinContext c1 c2).err = c1.err) ∧
      (c1.isDone = false → (joinContext c1 c2).err = c2.err)) := by
  refine ⟨fun hc hf => ?_, fun hc hf => ?_, fun c1 c2 => ?_⟩
  · have he : effectiveCtx ctx r = ctx := by simp [effectiveCtx, hc]
    simp only [runOneRequest, he, hf, if_pos hc]
    by_cases hr : r.hasResult <;> by_cases h1 : slot.closed <;>
      by_cases h2 : slot.sent.isSome <;> simp [hr, h1, h2]
  · have he : effectiveCtx ctx r = joinContext ctx r.context := by
      simp [effectiveCtx, hc]
    simp only [runOneRequest, he, hf, if_neg hc]
    by_cases hr : r.hasResult <;> by_cases h1 : slot.closed <;>
      by_cases h2 : slot.sent.isSome <;> simp [hr, h1, h2]
  · refine ⟨?_, fun h1 => ?_, fun h1 => ?_⟩
    · simp only [joinContext, Context.isDone]
      cases c1.err <;> cases c2.err <;> simp [Option.orElse]
    · simp only [joinContext, Context.isDone] at h1 ⊢
      cases hc1 : c1.err with
      | none => rw [hc1] at h1; simp at h1
      | some c => simp [Option.orElse]
    · simp only [joinContext, Context.isDone] at h1 ⊢
      cases hc1 : c1.err with
      | none => simp [Option.orElse]
      | some c => rw [hc1] at h1; simp at h1

/-- Witness for C5: distinct caller and consumer contexts, the caller one
cancelled by deadline expiry; the work function runs under the joined
context, released immediately afterwards, and the joined context is
cancelled. -/
theorem C5_witness :
    (runOneRequest ⟨0, none⟩ (submitRequest ⟨1, some .deadlineExceeded⟩ f42)
        emptySlot).events.take 2
      = [.callFunc (joinContext ⟨0, none⟩ ⟨1, some .deadlineExceeded⟩),
         .releaseJoin] ∧
    (joinContext ⟨0, none⟩ ⟨1, some .deadlineExceeded⟩).isDone = true := by
  have h := C5_joined_context_usage ⟨0, none⟩
    (submitRequest ⟨1, some .deadlineExceeded⟩ f42) emptySlot (some 42) none
  refine ⟨h.2.1 (by decide) rfl, ?_⟩
  have h2 := (h.2.2 ⟨0, none⟩ ⟨1, some .deadlineExceeded⟩).1
  simpa using h2

/-- Claim C6 counterexample: with an already-cancelled caller context but
the enqueue ready (buffer space or a waiting consumer), the select may take
the enqueue case: the request is enqueued, the work function is invoked by
the consumer, and `Submit` returns the work function's value — not the
cancellation error — so the claim fails on a buffered or actively consumed
executor. -/
theorem C6_counterexample :
    submit cancelledCtx true .second
        (runOneRequest liveCtx (submitRequest cancelledCtx f42) emptySlot).slot
      = ⟨.ret (some 42) none, true⟩ ∧
    Event.callFunc (joinContext liveCtx cancelledCtx)
      ∈ (runOneRequest liveCtx (submitRequest cancelledCtx f42) emptySlot).events := by
  decide

/-- Claim C6 as amended: with an already-cancelled caller context, whenever
the enqueue cannot proceed (no buffer space and no waiting consumer —
e.g. a fresh unbuffered executor) `Submit` and `SubmitNoWait`
deterministically return `context.Canceled` without enqueuing a request,
and a subsequent `RunOnce` on the still-empty executor with that cancelled
context returns `context.Canceled` without dequeuing; when the enqueue
could proceed, the select may instead accept the request. -/
theorem C6_cancelled_submit_deterministic_when_not_ready
    (ctx : Context) (h : ctx.isDone = true) (choice c2 : SelectChoice)
    (slot slot2 : SlotState) :
    submit ctx false choice slot = ⟨.ret none (some .ctxCanceled), false⟩ ∧
    submitNoWait ctx false choice = ⟨.ret (some .ctxCanceled), false⟩ ∧
    (runOnce ctx ⟨[], false⟩ c2 slot2).outcome = .ret (some .ctxCanceled) ∧
    (runOnce ctx ⟨[], false⟩ c2 slot2).dequeued = false := by
  refine ⟨by simp [submit, h], by simp [submitNoWait, h], ?_, ?_⟩ <;>
    simp [runOnce, h, queueRecvReady]

/-- Witness for the amended C6 at a concrete cancelled context. -/
theorem C6_witness :
    submit cancelledCtx false .first emptySlot
      = ⟨.ret none (some .ctxCanceled), false⟩ ∧
    submitNoWait cancelledCtx false .first = ⟨.ret (some .ctxCanceled), false⟩ ∧
    (runOnce cancelledCtx ⟨[], false⟩ .first emptySlot).outcome
      = .ret (some .ctxCanceled) ∧
    (runOnce cancelledCtx ⟨[], false⟩ .first emptySlot).dequeued = false :=
  C6_cancelled_submit_deterministic_when_not_ready cancelledCtx rfl .first .first
    emptySlot emptySlot

/-- Claim C7 counterexample: with an already-cancelled consumer context
and a request pending, the select may take the receive case: `RunOnce`
dequeues and executes the request and returns nil, and `RunLoop` dequeues
it before finally returning the cancellation error — so neither is
guaranteed to return cancellation without ever dequeuing. -/
theorem C7_counterexample :
    (runOnce cancelledCtx ⟨[pendingReq], false⟩ .second emptySlot).outcome
      = .ret none ∧
    (runOnce cancelledCtx ⟨[pendingReq], false⟩ .second emptySlot).dequeued
      = true ∧
    (runLoop cancelledCtx ⟨[pendingReq], false⟩ [.second]).2 = 1 := by
  decide

/-- Claim C7 as amended: with an already-cancelled context, `RunOnce` and
`RunLoop` return `context.Canceled` without dequeuing whenever the select
resolves in favour of the Done case or no request is pending on an open
queue; with a pending request the select may instead dequeue and execute
it first. -/
theorem C7_cancelled_first_branch_never_dequeues
    (ctx : Context) (h : ctx.isDone = true) :
    (∀ (q : QueueState) (slot : SlotState),
      (runOnce ctx q .first slot).outcome = .ret (some .ctxCanceled) ∧
      (runOnce ctx q .first slot).dequeued = false) ∧
    (∀ (c : SelectChoice) (slot : SlotState),
      (runOnce ctx ⟨[], false⟩ c slot).outcome = .ret (some .ctxCanceled) ∧
      (runOnce ctx ⟨[], false⟩ c slot).dequeued = false) ∧
    (∀ (items : List Request) (closed : Bool) (sched : List SelectChoice),
      runLoopAux ctx closed items (.first :: sched)
        = (.ret (some .ctxCanceled), 0)) := by
  refine ⟨fun q slot => ?_, fun c slot => ?_, fun items closed sched => ?_⟩
  · by_cases hq : queueRecvReady q <;> simp [runOnce, h, hq]
  · simp [runOnce, h, queueRecvReady]
  · cases items with
    | nil => cases closed <;> simp [runLoopAux, h]
    | cons r rest => simp [runLoopAux, h]

/-- Witness for the amended C7 at concrete inputs. -/
theorem C7_witness :
    (runOnce cancelledCtx ⟨[pendingReq], false⟩ .first emptySlot).outcome
      = .ret (some .ctxCanceled) ∧
    (runOnce cancelledCtx ⟨[pendingReq], false⟩ .first emptySlot).dequeued
      = false ∧
    runLoopAux cancelledCtx false [pendingReq] [.first]
      = (.ret (some .ctxCanceled), 0) := by
  have h := C7_cancelled_first_branch_never_dequeues cancelledCtx rfl
  exact ⟨(h.1 ⟨[pendingReq], false⟩ emptySlot).1,
    (h.1 ⟨[pendingReq], false⟩ emptySlot).2, h.2.2 [pendingReq] false []⟩

/-- Claim C8: a closed executor with nothing pending makes `RunLoop`
return nil (graceful end-of-stream), not a cancellation error; and
`RunLoop` returns `context.Canceled` only as a consequence of its own
context being cancelled — with a live context it never returns the
cancellation error, and with a cancelled context on an open empty queue
cancellation is exactly what it returns. -/
theorem C8_runloop_eof_normal_canceled_iff_ctx
    (ctx ctx' : Context) (h : ctx.isDone = false) (h' : ctx'.isDone = true)
    (sched sched' : List SelectChoice) :
    runLoop ctx ⟨[], true⟩ sched = (.ret none, 0) ∧
    (∀ (items : List Request) (closed : Bool) (s2 : List SelectChoice),
      (runLoop ctx ⟨items, closed⟩ s2).1 ≠ .ret (some .ctxCanceled)) ∧
    runLoop ctx' ⟨[], false⟩ sched' = (.ret (some .ctxCanceled), 0) := by
  refine ⟨by simp [runLoop, runLoopAux, h], ?_,
    by simp [runLoop, runLoopAux, h']⟩
  intro items closed s2
  exact runLoopAux_ne_canceled ctx h items closed s2

/-- Witness for C8 at concrete contexts. -/
theorem C8_witness :
    runLoop ⟨3, none⟩ ⟨[], true⟩ [] = (.ret none, 0) ∧
    (runLoop ⟨3, none⟩ ⟨[pendingReq], false⟩ [.second]).1
      ≠ .ret (some .ctxCanceled) ∧
    runLoop ⟨7, some .deadlineExceeded⟩ ⟨[], false⟩ []
      = (.ret (some .ctxCanceled), 0) := by
  have h := C8_runloop_eof_normal_canceled_iff_ctx ⟨3, none⟩
    ⟨7, some .deadlineExceeded⟩ rfl rfl [] []
  exact ⟨h.1, h.2.1 [pendingReq] false [.second], h.2.2⟩

/-- Claim C9: every cancellation report of `Submit`, `SubmitNoWait`,
`RunOnce` and `RunLoop` is the fixed sentinel `context.Canceled`, even
when the context was cancelled by deadline expiry; the context's own error
value is never consulted — replacing one cancellation cause by another
changes nothing about the outcome. -/
theorem C9_cancellation_error_is_fixed_sentinel
    (ctx : Context) (h : ctx.err = some CtxErr.deadlineExceeded)
    (choice : SelectChoice) (slot : SlotState) (sched : List SelectChoice) :
    (submit ctx false choice slot).outcome = .ret none (some .ctxCanceled) ∧
    (submitNoWait ctx false choice).outcome = .ret (some .ctxCanceled) ∧
    (runOnce ctx ⟨[], false⟩ choice slot).outcome = .ret (some .ctxCanceled) ∧
    (runLoop ctx ⟨[], false⟩ sched).1 = .ret (some .ctxCanceled) ∧
    (∀ e1 e2 : CtxErr,
      submit ⟨ctx.id, some e1⟩ false choice slot
        = submit ⟨ctx.id, some e2⟩ false choice slot ∧
      runOnce ⟨ctx.id, some e1⟩ ⟨[], false⟩ choice slot
        = runOnce ⟨ctx.id, some e2⟩ ⟨[], false⟩ choice slot) := by
  have hd : ctx.isDone = true := by simp [Context.isDone, h]
  exact ⟨by simp [submit, hd], by simp [submitNoWait, hd],
    by simp [runOnce, hd, queueRecvReady], by simp [runLoop, runLoopAux, hd],
    fun e1 e2 => ⟨rfl, rfl⟩⟩

/-- Witness for C9 at a concrete deadline-expired context. -/
theorem C9_witness :
    (submit ⟨7, some .deadlineExceeded⟩ false .first emptySlot).outcome
      = .ret none (some .ctxCanceled) ∧
    (submitNoWait ⟨7, some .deadlineExceeded⟩ false .first).outcome
      = .ret (some .ctxCanceled) ∧
    (runOnce ⟨7, some .deadlineExceeded⟩ ⟨[], false⟩ .first emptySlot).outcome
      = .ret (some .ctxCanceled) ∧
    (runLoop ⟨7, some .deadlineExceeded⟩ ⟨[], false⟩ []).1
      = .ret (some .ctxCanceled) := by
  have h := C9_cancellation_error_is_fixed_sentinel ⟨7, some .deadlineExceeded⟩
    rfl .first emptySlot []
  exact ⟨h.1, h.2.1, h.2.2.1, h.2.2.2.1⟩

/-- Claim C10: a panic in the work function propagates out of
`RunOneRequest` (and through `RunOnce` and `RunLoop`) with no recovery
installed: the joined context's cancel function is not called, the reply
slot is neither written to nor closed (its state is unchanged), and a
caller blocked on the reply receive stays blocked. -/
theorem C10_panic_propagates_without_cleanup
    (cctx ctx : Context) (f : Func) (code : Nat) (slot : SlotState)
    (hf : f (effectiveCtx cctx (submitRequest ctx f)) = .panics code) :
    (runOneRequest cctx (submitRequest ctx f) slot).outcome
      = .panicked (.fromFunc code) ∧
    (runOneRequest cctx (submitRequest ctx f) slot).events
      = [.callFunc (effectiveCtx cctx (submitRequest ctx f))] ∧
    (runOneRequest cctx (submitRequest ctx f) slot).slot = slot ∧
    (runOnce cctx ⟨[submitRequest ctx f], false⟩ .second slot).outcome
      = .panicked (.fromFunc code) ∧
    (runLoop cctx ⟨[submitRequest ctx f], false⟩ [.second]).1
      = .panicked (.fromFunc code) ∧
    recvResult (runOneRequest cctx (submitRequest ctx f) emptySlot).slot
      = .blockedReply := by
  have hrun : ∀ s : SlotState, runOneRequest cctx (submitRequest ctx f) s
      = ⟨[.callFunc (effectiveCtx cctx (submitRequest ctx f))],
         .panicked (.fromFunc code), s⟩ := by
    intro s
    simp only [submitRequest] at hf ⊢
    simp only [runOneRequest, hf]
  refine ⟨by rw [hrun], by rw [hrun], by rw [hrun], ?_, ?_, ?_⟩
  · by_cases hd : cctx.isDone <;>
      simp [runOnce, queueRecvReady, runOnceRecv, hrun, hd]
  · by_cases hd : cctx.isDone <;> simp [runLoop, runLoopAux, hrun, hd]
  · rw [hrun]
    simp [recvResult, emptySlot]

/-- Witness for C10 at a concrete panicking work function. -/
theorem C10_witness :
    (runOneRequest ⟨0, none⟩ (submitRequest ⟨1, none⟩ fun _ => .panics 9)
        emptySlot).outcome = .panicked (.fromFunc 9) ∧
    (runOneRequest ⟨0, none⟩ (submitRequest ⟨1, none⟩ fun _ => .panics 9)
        emptySlot).events
      = [.callFunc (effectiveCtx ⟨0, none⟩
          (submitRequest ⟨1, none⟩ fun _ => .panics 9))] ∧
    (runOneRequest ⟨0, none⟩ (submitRequest ⟨1, none⟩ fun _ => .panics 9)
        emptySlot).slot = emptySlot ∧
    (runOnce ⟨0, none⟩ ⟨[submitRequest ⟨1, none⟩ fun _ => .panics 9], false⟩
        .second emptySlot).outcome = .panicked (.fromFunc 9) ∧
    (runLoop ⟨0, none⟩ ⟨[submitRequest ⟨1, none⟩ fun _ => .panics 9], false⟩
        [.second]).1 = .panicked (.fromFunc 9) ∧
    recvResult (runOneRequest ⟨0, none⟩
        (submitRequest ⟨1, none⟩ fun _ => .panics 9) emptySlot).slot
      = .blockedReply :=
  C10_panic_propagates_without_cleanup ⟨0, none⟩ ⟨1, none⟩
    (fun _ => .panics 9) 9 emptySlot rfl

end Cgc
